import Mathlib

/-!
Verification of the avatar-generation subsystem of `scripts/generate_avatar.py`:
the GLB container data model, the face-texture locator, the binary blob
patcher, the texture compositor, the perspective mapper and the standalone
container builder, shallowly embedded as executable Lean definitions.
-/

namespace AvatarGen

/-! ## Container data model

Mirrors the pygltflib objects that `generate_avatar.py` reads and writes.
Only the fields the script touches are modelled; cross references are plain
integer indices, exactly as in glTF JSON.  A `TextureInfo` object is
flattened to its `index` field, which is the only field the script reads. -/

/-- A byte range inside the shared binary blob (`pygltflib.BufferView`);
the script reads and writes only `byteOffset` and `byteLength`. -/
structure BufferView where
  byteOffset : Nat
  byteLength : Nat
deriving DecidableEq

/-- A buffer header (`pygltflib.Buffer`); the script touches only `byteLength`. -/
structure Buffer where
  byteLength : Nat
deriving DecidableEq

/-- `pbrMetallicRoughness` material block; `baseColorTexture` holds the
texture index (`baseColorTexture.index` in the source). -/
structure Pbr where
  baseColorTexture : Option Nat
deriving DecidableEq

/-- `pygltflib.Material`: a name and an optional PBR block. -/
structure Material where
  name : Option String
  pbrMetallicRoughness : Option Pbr
deriving DecidableEq

/-- `pygltflib.Primitive`: the script reads only `material`. -/
structure Primitive where
  material : Option Nat
deriving DecidableEq

/-- `pygltflib.Mesh`: a name and its primitives. -/
structure Mesh where
  name : Option String
  primitives : List Primitive
deriving DecidableEq

/-- `pygltflib.Texture`: `source` is the image index. -/
structure Texture where
  source : Option Nat
deriving DecidableEq

/-- `pygltflib.Image` (imported as `GLTFImage` in the source): the script
reads `bufferView` and writes `mimeType`. -/
structure GLTFImage where
  bufferView : Option Nat
  mimeType : Option String
deriving DecidableEq

/-- The loaded container (`pygltflib.GLTF2`).  `blob` models
`binary_blob()` / `set_binary_blob(...)`: the single shared binary section,
a byte string modelled as a list of byte values.  Fields the script never
reads (nodes, scenes, accessors, skins) are omitted. -/
structure GLTF where
  meshes : List Mesh
  materials : List Material
  textures : List Texture
  images : List GLTFImage
  bufferViews : List BufferView
  buffers : List Buffer
  blob : Option (List Nat)
deriving DecidableEq

/-! ## Python runtime primitives -/

/-- Exceptions the modelled code can raise: `IndexError` from `list[i]` with
`i` out of range, and `TypeError` from subscripting `None`
(`_extract_glb_image` slices `gltf.binary_blob()` without a `None` check). -/
inductive PyErr where
  | indexError
  | typeError
deriving DecidableEq

/-- Python `l[i]` on a list: the value, or `IndexError` when out of range. -/
def getItem {α : Type} (l : List α) (i : Nat) : Except PyErr α :=
  match l[i]? with
  | some a => .ok a
  | none => .error .indexError

/-- Python slice assignment `l[a:b] = x` (step 1, non-negative bounds):
the result is `l[:a] + x + l[max(a,b):]`, with both bounds clamped to the
list length (which `take`/`drop` do on their own). -/
def sliceAssign (l : List Nat) (a b : Nat) (x : List Nat) : List Nat :=
  l.take a ++ x ++ l.drop (max a b)

/-! ## Name heuristics (`_find_skin_image_index`, lines 162-187)

Python tests `"head" in (mesh.name or "").lower()`.  Lowering is modelled
on the character list (ASCII lowering, which agrees with `str.lower` on the
ASCII template names the heuristic targets). -/

/-- Substring test on character lists: does `sub` occur contiguously in the
second list?  Models the Python `in` operator on strings. -/
def isInfixCh (sub : List Char) : List Char → Bool
  | [] => sub.isEmpty
  | c :: rest => List.isPrefixOf sub (c :: rest) || isInfixCh sub rest

/-- `sub in (name or "").lower()` from the source, for an optional name. -/
def nameHas (name : Option String) (sub : String) : Bool :=
  isInfixCh sub.toList ((name.getD "").toList.map Char.toLower)

/-- Strategy 1 inner loop (lines 167-175): scan a mesh's primitives; for the
first primitive whose material resolves a base-color texture with a source
image, return that image index.  `gltf.materials[...]` and
`gltf.textures[...]` are Python indexing and can raise `IndexError`. -/
def findInPrims (g : GLTF) : List Primitive → Except PyErr (Option Nat)
  | [] => .ok none
  | p :: rest =>
    match p.material with
    | none => findInPrims g rest
    | some mi =>
      match getItem g.materials mi with
      | .error e => .error e
      | .ok mat =>
        match mat.pbrMetallicRoughness with
        | none => findInPrims g rest
        | some pbr =>
          match pbr.baseColorTexture with
          | none => findInPrims g rest
          | some ti =>
            match getItem g.textures ti with
            | .error e => .error e
            | .ok tex =>
              match tex.source with
              | none => findInPrims g rest
              | some s => .ok (some s)

/-- Strategy 1 outer loop (lines 165-175): scan meshes in order; for a mesh
whose lowered name contains `"head"`, try its primitives; `return` inside
the Python loop exits the whole scan on the first resolution. -/
def findInMeshes (g : GLTF) : List Mesh → Except PyErr (Option Nat)
  | [] => .ok none
  | m :: rest =>
    if nameHas m.name "head" then
      match findInPrims g m.primitives with
      | .error e => .error e
      | .ok (some s) => .ok (some s)
      | .ok none => findInMeshes g rest
    else findInMeshes g rest

/-- Strategy 2 (lines 178-185): scan materials in order; for a material
whose lowered name contains `"skin"`, resolve its base-color texture chain. -/
def findInMats (g : GLTF) : List Material → Except PyErr (Option Nat)
  | [] => .ok none
  | mat :: rest =>
    if nameHas mat.name "skin" then
      match mat.pbrMetallicRoughness with
      | none => findInMats g rest
      | some pbr =>
        match pbr.baseColorTexture with
        | none => findInMats g rest
        | some ti =>
          match getItem g.textures ti with
          | .error e => .error e
          | .ok tex =>
            match tex.source with
            | none => findInMats g rest
            | some s => .ok (some s)
    else findInMats g rest

/-- `_find_skin_image_index` (lines 162-187): strategy 1, then strategy 2,
then `None`.  A pure read-only traversal: it returns an index and leaves
the container untouched. -/
def findSkinImageIndex (g : GLTF) : Except PyErr (Option Nat) :=
  match findInMeshes g g.meshes with
  | .error e => .error e
  | .ok (some s) => .ok (some s)
  | .ok none => findInMats g g.materials

/-! ## Specification-side locator

For the refinement claim about `_find_skin_image_index`, a second
definition written from the spec's words (section 4.4): scan meshes whose
name contains the case-insensitive substring "head" and return the first
resolved primitive-material-texture-image chain; only if no such mesh
resolves, scan materials whose name contains "skin"; otherwise not found.
Index lookups are total here (`Option`), as the spec speaks of a loaded,
well-formed container. -/

/-- Spec words: resolve one primitive's material to a base-color texture to
an image index, if every link is present. -/
def specResolvePrim (g : GLTF) (p : Primitive) : Option Nat :=
  p.material.bind fun mi =>
    (g.materials[mi]?).bind fun mat =>
      mat.pbrMetallicRoughness.bind fun pbr =>
        pbr.baseColorTexture.bind fun ti =>
          (g.textures[ti]?).bind fun tex => tex.source

/-- Spec words: a mesh resolves when its name contains "head" and some
primitive (the first, in order) resolves a chain. -/
def specResolveMesh (g : GLTF) (m : Mesh) : Option Nat :=
  if nameHas m.name "head" then m.primitives.findSome? (specResolvePrim g)
  else none

/-- Spec words: a material resolves when its name contains "skin" and its
base-color texture chain resolves. -/
def specResolveMat (g : GLTF) (mat : Material) : Option Nat :=
  if nameHas mat.name "skin" then
    mat.pbrMetallicRoughness.bind fun pbr =>
      pbr.baseColorTexture.bind fun ti =>
        (g.textures[ti]?).bind fun tex => tex.source
  else none

/-- Spec words, section 4.4: first matching mesh wins; only if no mesh
resolves are materials scanned; otherwise the not-found outcome. -/
def specLocateFaceImage (g : GLTF) : Option Nat :=
  (g.meshes.findSome? (specResolveMesh g)).orElse fun _ =>
    g.materials.findSome? (specResolveMat g)

/-- Well-formed cross indices for one primitive: a referenced material
index is in range. -/
def primWF (g : GLTF) (p : Primitive) : Bool :=
  match p.material with
  | none => true
  | some mi => mi < g.materials.length

/-- Well-formed cross indices for one material: a referenced base-color
texture index is in range. -/
def matWF (g : GLTF) (mat : Material) : Bool :=
  match mat.pbrMetallicRoughness with
  | none => true
  | some pbr =>
    match pbr.baseColorTexture with
    | none => true
    | some ti => ti < g.textures.length

/-- Container invariant used by the locator claims: every index the
traversal can dereference is in range (the data-model invariant of a
loaded container). -/
def wfGLTF (g : GLTF) : Bool :=
  (g.meshes.all fun m => m.primitives.all (primWF g)) &&
    g.materials.all (matWF g)

/-! ## `_extract_glb_image` (lines 190-199) -/

/-- The byte-range extraction of `_extract_glb_image`: look up the image,
return `none` when it has no `bufferView` (line 193-194), otherwise slice
`binary_blob()[byteOffset : byteOffset+byteLength]`.  When the container
has no binary blob, the Python slice subscripts `None` and raises
`TypeError`.  The PIL decode of the sliced bytes is outside the container
model; the slice itself is returned. -/
def extractGlbImage (g : GLTF) (idx : Nat) : Except PyErr (Option (List Nat)) :=
  match getItem g.images idx with
  | .error e => .error e
  | .ok img =>
    match img.bufferView with
    | none => .ok none
    | some bvi =>
      match getItem g.bufferViews bvi with
      | .error e => .error e
      | .ok bv =>
        match g.blob with
        | none => .error .typeError
        | some blob => .ok (some ((blob.drop bv.byteOffset).take bv.byteLength))

/-! ## Binary patcher (`replace_texture_in_glb`, lines 255-282) -/

/-- One pass of the padding loop `while new_offset % 4 != 0: blob.append(0)`.
Each iteration appends one zero byte, so at most three run; `padLoop 3`
below is therefore the whole loop. -/
def padLoop : Nat → List Nat → List Nat
  | 0, b => b
  | fuel + 1, b => if b.length % 4 = 0 then b else padLoop fuel (b ++ [0])

/-- The padding loop of lines 271-273: append zero bytes until the blob
length is a multiple of 4. -/
def padTo4 (b : List Nat) : List Nat := padLoop 3 b

/-- Lines 255-281: given the located image index and the encoded PNG bytes,
patch the blob.  In-place overwrite and zero fill when the new payload fits
(lines 263-268); pad to 4 bytes, append, and retarget the view plus the
first buffer's declared length when it does not (lines 269-278).  Either
way the image's MIME type is set to `image/png` (line 281).  An image with
no `bufferView` skips all of it; a container with no blob skips the blob
work but still gets the MIME update. -/
def patchStep (g : GLTF) (idx : Nat) (png : List Nat) : Except PyErr GLTF :=
  match getItem g.images idx with
  | .error e => .error e
  | .ok image =>
    match image.bufferView with
    | none => .ok g
    | some bvi =>
      match getItem g.bufferViews bvi with
      | .error e => .error e
      | .ok bv =>
        match g.blob with
        | none => .ok { g with images := g.images.set idx { image with mimeType := some "image/png" } }
        | some blob0 =>
          let oldLength := bv.byteLength
          let newLength := png.length
          let g1 :=
            if newLength ≤ oldLength then
              let blob1 := sliceAssign blob0 bv.byteOffset (bv.byteOffset + newLength) png
              let blob2 := sliceAssign blob1 (bv.byteOffset + newLength) (bv.byteOffset + oldLength)
                (List.replicate (oldLength - newLength) 0)
              { g with blob := some blob2,
                       bufferViews := g.bufferViews.set bvi { bv with byteLength := newLength } }
            else
              let padded := padTo4 blob0
              let newOffset := padded.length
              let blob1 := padded ++ png
              let g2 := { g with blob := some blob1,
                                 bufferViews := g.bufferViews.set bvi
                                   { bv with byteOffset := newOffset, byteLength := newLength } }
              match g2.buffers with
              | [] => g2
              | b0 :: rest => { g2 with buffers := { b0 with byteLength := blob1.length } :: rest }
          .ok { g1 with images := g1.images.set idx { image with mimeType := some "image/png" } }

/-- The externally visible outcome of `replace_texture_in_glb`:
the two `return False` branches (no texture found, line 223; original not
extractable, line 229), an uncaught Python exception, or `gltf.save` on the
final container followed by `return True` (lines 283-285).  Nothing is
written to the output path except in the `saved` outcome. -/
inductive PatchOutcome where
  | failNoTexture
  | failNoOriginal
  | pyError (e : PyErr)
  | saved (g : GLTF)
deriving DecidableEq

/-- Did `replace_texture_in_glb` write the output file and return `True`? -/
def savedOutcome : PatchOutcome → Bool
  | .saved _ => true
  | _ => false

/-- `replace_texture_in_glb` (lines 219-285) at the container level.  The
image processing between extraction and patching (resize, alpha blend, PNG
encode, lines 231-251) is pure and total given extracted bytes, so the
resulting encoded bytes enter as the `png` parameter; `blendPixel` below
models the blend arithmetic itself. -/
def replaceTextureInGlb (g : GLTF) (png : List Nat) : PatchOutcome :=
  match findSkinImageIndex g with
  | .error e => .pyError e
  | .ok none => .failNoTexture
  | .ok (some idx) =>
    match extractGlbImage g idx with
    | .error e => .pyError e
    | .ok none => .failNoOriginal
    | .ok (some _) =>
      match patchStep g idx png with
      | .error e => .pyError e
      | .ok g2 => .saved g2

/-! ## Texture compositor (lines 239-245)

`alpha = mask/255.0; blended = (warped*alpha + original*(1-alpha)).astype(uint8)`.
The float arithmetic is modelled over the rationals; `astype(np.uint8)`
truncates toward zero, which on the non-negative convex blend of channel
values is the floor.  `np.stack([alpha]*3)` broadcasts each pixel's mask
value to the three channels, modelled by `blendRGB`. -/

/-- One channel of the blend: `warped*(m/255) + original*(1 - m/255)`,
truncated to an integer. -/
def blendPixel (w o m : Nat) : Nat :=
  (⌊(w : ℚ) * ((m : ℚ) / 255) + (o : ℚ) * (1 - (m : ℚ) / 255)⌋).toNat

/-- One RGB pixel of the blend, the mask value broadcast to all channels. -/
def blendRGB (w o : Nat × Nat × Nat) (m : Nat) : Nat × Nat × Nat :=
  (blendPixel w.1 o.1 m, blendPixel w.2.1 o.2.1 m, blendPixel w.2.2 o.2.2 m)

/-- The elementwise blend over whole images: pixel lists of the warped
photo and the original texture, with a per-pixel mask list. -/
def blendImage : List (Nat × Nat × Nat) → List (Nat × Nat × Nat) → List Nat → List (Nat × Nat × Nat)
  | w :: ws, o :: os, m :: ms => blendRGB w o m :: blendImage ws os ms
  | _, _, _ => []

/-! ## Geometry mapper (`extract_face_texture`, lines 85-159)

Coordinates are modelled over the rationals.  `cv2.getPerspectiveTransform`
builds the standard 8-by-8 linear system from the four correspondences and
calls OpenCV's LU solve; on a singular system the solve reports failure and
yields a degenerate solution instead of raising, so the call is total and
the Python function has no failure path at all: it always returns the
warped image and the feathered mask. -/

/-- First row pair of the homography system for one correspondence
`(sx,sy) -> (dx,dy)`, in augmented form (8 coefficients plus right side). -/
def corrRows (s d : ℚ × ℚ) : List (List ℚ) :=
  [[s.1, s.2, 1, 0, 0, 0, -s.1 * d.1, -s.2 * d.1, d.1],
   [0, 0, 0, s.1, s.2, 1, -s.1 * d.2, -s.2 * d.2, d.2]]

/-- The augmented 8-by-9 system of `cv2.getPerspectiveTransform`. -/
def perspectiveSystem (src dst : List (ℚ × ℚ)) : List (List ℚ) :=
  (List.zip src dst).flatMap fun sd => corrRows sd.1 sd.2

/-- Select the first row with a nonzero leading coefficient, keeping the
remaining rows in order (row pivoting of the LU solve). -/
def findPivot : List (List ℚ) → Option (List ℚ × List (List ℚ))
  | [] => none
  | r :: rs =>
    if r.headD 0 ≠ 0 then some (r, rs)
    else
      match findPivot rs with
      | some (p, rest) => some (p, r :: rest)
      | none => none

/-- Eliminate the leading coefficient of `r` against pivot row `p` and drop
the leading column. -/
def reduceRow (p r : List ℚ) : List ℚ :=
  (List.zipWith (fun a b => a - r.headD 0 / p.headD 0 * b) r p).drop 1

/-- Exact Gaussian elimination with back substitution on an augmented
square system; `none` when a pivot column is entirely zero, i.e. the
system is singular — the case the claim calls degenerate geometry. -/
def gauss : Nat → List (List ℚ) → Option (List ℚ)
  | 0, _ => some []
  | fuel + 1, rows =>
    match findPivot rows with
    | none => none
    | some (p, rest) =>
      match gauss fuel (rest.map (reduceRow p)) with
      | none => none
      | some xs =>
        some (((p.drop 1).getLastD 0 -
          (List.zipWith (fun c x => c * x) ((p.drop 1).dropLast) xs).sum) / p.headD 0 :: xs)

/-- Model of `cv2.getPerspectiveTransform src dst` (line 125): the unique
homography when the 8-by-8 system is regular; on a singular system OpenCV's
LU solve reports failure and leaves a zero solution — no exception either
way. -/
def getPerspectiveTransform (src dst : List (ℚ × ℚ)) : List (List ℚ) :=
  match gauss 8 (perspectiveSystem src dst) with
  | some x =>
    [[x.getD 0 0, x.getD 1 0, x.getD 2 0],
     [x.getD 3 0, x.getD 4 0, x.getD 5 0],
     [x.getD 6 0, x.getD 7 0, 1]]
  | none => [[0, 0, 0], [0, 0, 0], [0, 0, 1]]

/-- The four source anchors of lines 108-113: landmarks 159 (left eye),
386 (right eye), 1 (nose tip), 152 (chin).  The landmark array is modelled
as an index-to-point function (the detector always returns 468 points). -/
def srcPts (lm : Nat → ℚ × ℚ) : List (ℚ × ℚ) :=
  [lm 159, lm 386, lm 1, lm 152]

/-- The fixed destination anchors of lines 117-122. -/
def dstPts : List (ℚ × ℚ) :=
  [(342, 262), (680, 265), (511, 408), (527, 781)]

/-- Outcome vocabulary for the mapper claim: either a warped output built
from the computed transform, or the error the spec postulates.  The source
never signals the error. -/
inductive MapperOutcome where
  | warpedOutput (M : List (List ℚ))
  | invalidCorrespondence
deriving DecidableEq

/-- `extract_face_texture` (lines 85-159): unconditionally computes the
transform and produces the warped photo and feathered mask; the warp, hull,
fill, erode and blur of lines 128-157 are unconditional total raster
operations on that transform, so the outcome is represented by the
transform.  There is no check and no error path in the source. -/
def extractFaceTexture (lm : Nat → ℚ × ℚ) : MapperOutcome :=
  .warpedOutput (getPerspectiveTransform (srcPts lm) dstPts)

/-- Three points are collinear: zero cross product. -/
def collinear3 (p q r : ℚ × ℚ) : Bool :=
  decide ((q.1 - p.1) * (r.2 - p.2) - (q.2 - p.2) * (r.1 - p.1) = 0)

/-! ## Standalone builder (`generate_standalone_avatar`, lines 328-494) -/

/-- `align4` of line 388-389: round up to a multiple of 4, modelling the
Python `(n + 3) & ~3`. -/
def align4 (n : Nat) : Nat := (n + 3) / 4 * 4

/-- Little-endian bytes of one `uint16`. -/
def u16le (v : Nat) : List Nat := [v % 256, v / 256 % 256]

/-- Little-endian bytes of one `float32` given as its IEEE-754 bit pattern. -/
def f32le (bits : Nat) : List Nat :=
  [bits % 256, bits / 256 % 256, bits / 65536 % 256, bits / 16777216 % 256]

/-- IEEE-754 single bit pattern of `0.5`. -/
def fHalf : Nat := 0x3F000000

/-- IEEE-754 single bit pattern of `-0.5`. -/
def fNegHalf : Nat := 0xBF000000

/-- IEEE-754 single bit pattern of `0.0`. -/
def fZero : Nat := 0

/-- IEEE-754 single bit pattern of `1.0`. -/
def fOne : Nat := 0x3F800000

/-- `indices.tobytes()` for `np.array([0,1,2,0,2,3], dtype=np.uint16)`. -/
def indicesBytes : List Nat := ([0, 1, 2, 0, 2, 3].map u16le).flatten

/-- `vertices.tobytes()` for the four `float32` corner vertices of the quad
(lines 373-376). -/
def verticesBytes : List Nat :=
  ([fNegHalf, fNegHalf, fZero, fHalf, fNegHalf, fZero,
    fHalf, fHalf, fZero, fNegHalf, fHalf, fZero].map f32le).flatten

/-- `uvs.tobytes()` for `[[0,1],[1,1],[1,0],[0,0]]` as `float32` (line 377). -/
def uvsBytes : List Nat :=
  ([fZero, fOne, fOne, fOne, fOne, fZero, fZero, fZero].map f32le).flatten

/-- Lines 388-487: assemble the blob (indices, vertices, UVs, image bytes,
each padded to 4-byte alignment) and the container around it, with the four
buffer views, one buffer declaring the blob length, one mesh, one material,
one texture and one embedded image.  `png` is the PNG encoding of the face
texture (lines 384-386). -/
def standaloneGltf (png : List Nat) : GLTF :=
  let idxLen := indicesBytes.length
  let buffer1 := indicesBytes ++ List.replicate (align4 idxLen - idxLen) 0
  let vtxOffset := buffer1.length
  let vtxLen := verticesBytes.length
  let buffer2 := buffer1 ++ verticesBytes ++ List.replicate (align4 vtxLen - vtxLen) 0
  let uvOffset := buffer2.length
  let uvLen := uvsBytes.length
  let buffer3 := buffer2 ++ uvsBytes ++ List.replicate (align4 uvLen - uvLen) 0
  let imgOffset := buffer3.length
  let imgLen := png.length
  let bufferData := buffer3 ++ png ++ List.replicate (align4 imgLen - imgLen) 0
  { meshes := [{ name := none, primitives := [{ material := some 0 }] }],
    materials := [{ name := none, pbrMetallicRoughness := some { baseColorTexture := some 0 } }],
    textures := [{ source := some 0 }],
    images := [{ bufferView := some 3, mimeType := some "image/png" }],
    bufferViews :=
      [{ byteOffset := 0, byteLength := idxLen },
       { byteOffset := vtxOffset, byteLength := vtxLen },
       { byteOffset := uvOffset, byteLength := uvLen },
       { byteOffset := imgOffset, byteLength := imgLen }],
    buffers := [{ byteLength := bufferData.length }],
    blob := some bufferData }

/-- File-system writes the standalone path performs. -/
inductive WriteEvent where
  | pngWrite (path : String) (bytes : List Nat)
  | glbWrite (path : String) (g : GLTF)
deriving DecidableEq

/-- `generate_standalone_avatar` (lines 328-494) as its write trace and
return value.  The loose PNG is saved at lines 337-338, before the `try`
block; everything that can fail (the pygltflib import and the container
construction) is inside `try ... except Exception`, which prints a warning
and returns `False` (lines 492-494) — no exception escapes.  Whether the
body raises depends on the runtime environment (e.g. pygltflib missing),
modelled by `buildThrows`; the exception, when any, occurs before
`gltf.save` (line 488). -/
def generateStandaloneAvatar (outputPath : String) (png : List Nat)
    (buildThrows : Bool) : List WriteEvent × Bool :=
  let texturePath := outputPath.replace ".glb" ".png"
  if buildThrows then ([.pngWrite texturePath png], false)
  else ([.pngWrite texturePath png, .glbWrite outputPath (standaloneGltf png)], true)

end AvatarGen

namespace AvatarGen

/-! ## Sample container used by the witnesses -/

/-- Sample face image entry pointing at buffer view 0. -/
def imgW : GLTFImage := { bufferView := some 0, mimeType := some "image/jpeg" }

/-- Sample buffer view: the 6-byte slot `[4, 10)` of the sample blob. -/
def bvW : BufferView := { byteOffset := 4, byteLength := 6 }

/-- Sample 12-byte blob. -/
def blobW : List Nat := [1, 2, 3, 4, 5, 6, 7, 8, 9, 10, 11, 12]

/-- Sample replacement payload that fits the old slot (4 bytes). -/
def pngW : List Nat := [90, 91, 92, 93]

/-- Sample replacement payload larger than the old slot (7 bytes). -/
def pngBig : List Nat := [80, 81, 82, 83, 84, 85, 86]

/-- Sample head mesh. -/
def meshW : Mesh := { name := some "Wolf3D_Head", primitives := [{ material := some 0 }] }

/-- Sample skin material. -/
def matW : Material :=
  { name := some "Wolf3D_Skin", pbrMetallicRoughness := some { baseColorTexture := some 0 } }

/-- Sample well-formed template container. -/
def gW : GLTF :=
  { meshes := [meshW], materials := [matW], textures := [{ source := some 0 }],
    images := [imgW], bufferViews := [bvW], buffers := [{ byteLength := 12 }],
    blob := some blobW }

/-- The sample container with its binary blob removed. -/
def gNoBlob : GLTF := { gW with blob := none }

/-- A landmark assignment whose three anchor points 159, 386 and 1 (both
eyes and the nose tip) lie on one line. -/
def lmDeg : Nat → ℚ × ℚ := fun i =>
  if i = 159 then (0, 0)
  else if i = 386 then (1, 0)
  else if i = 1 then (2, 0)
  else if i = 152 then (3, 1)
  else (0, 0)

/-! ## Padding-loop lemmas -/

/-- Closed form of the bounded padding loop: it appends exactly the number
of zero bytes that rounds the length up to a multiple of 4. -/
theorem padLoop_eq : ∀ (fuel : Nat) (b : List Nat),
    (4 - b.length % 4) % 4 ≤ fuel →
    padLoop fuel b = b ++ List.replicate ((4 - b.length % 4) % 4) 0 := by
  intro fuel
  induction fuel with
  | zero =>
    intro b h
    have hz : (4 - b.length % 4) % 4 = 0 := Nat.le_zero.mp h
    simp [padLoop, hz]
  | succ fuel ih =>
    intro b h
    by_cases h0 : b.length % 4 = 0
    · simp [padLoop, h0]
    · have hlen : (b ++ [0]).length = b.length + 1 := by simp
      have hk : (4 - (b ++ [0]).length % 4) % 4 + 1 = (4 - b.length % 4) % 4 := by
        rw [hlen]; omega
      have hle : (4 - (b ++ [0]).length % 4) % 4 ≤ fuel := by omega
      calc padLoop (fuel + 1) b = padLoop fuel (b ++ [0]) := by simp [padLoop, h0]
        _ = (b ++ [0]) ++ List.replicate ((4 - (b ++ [0]).length % 4) % 4) 0 := ih _ hle
        _ = b ++ List.replicate ((4 - b.length % 4) % 4) 0 := by
            rw [← hk, List.replicate_succ, List.append_assoc]; rfl

/-- Closed form of `padTo4`. -/
theorem padTo4_eq (b : List Nat) :
    padTo4 b = b ++ List.replicate ((4 - b.length % 4) % 4) 0 :=
  padLoop_eq 3 b (by omega)

/-- Length after padding. -/
theorem padTo4_length (b : List Nat) :
    (padTo4 b).length = b.length + (4 - b.length % 4) % 4 := by
  rw [padTo4_eq]; simp

/-- The padded length is a multiple of 4. -/
theorem padTo4_length_mod (b : List Nat) : (padTo4 b).length % 4 = 0 := by
  rw [padTo4_length]; omega

/-- Padding appends zero bytes and nothing else. -/
theorem padTo4_append (b : List Nat) :
    padTo4 b = b ++ List.replicate ((padTo4 b).length - b.length) 0 := by
  rw [padTo4_length, padTo4_eq]
  congr 2
  omega

/-! ## Slice-assignment lemmas -/

/-- The two in-place slice assignments of lines 264-267: write the new
payload at the old offset, then zero the remainder of the old slot.  With
the view's range inside the blob, the result is the expected splice. -/
theorem double_assign (blob png : List Nat) (off old : Nat)
    (hrange : off + old ≤ blob.length) (hle : png.length ≤ old) :
    sliceAssign (sliceAssign blob off (off + png.length) png)
      (off + png.length) (off + old) (List.replicate (old - png.length) 0)
    = blob.take off ++ png ++ List.replicate (old - png.length) 0 ++ blob.drop (off + old) := by
  unfold sliceAssign
  have hmax1 : max off (off + png.length) = off + png.length := by omega
  have hmax2 : max (off + png.length) (off + old) = off + old := by omega
  rw [hmax1, hmax2]
  have hofflen : (blob.take off).length = off := by
    rw [List.length_take]; omega
  have htake : (blob.take off ++ (png ++ blob.drop (off + png.length))).take (off + png.length)
      = blob.take off ++ png := by
    rw [List.take_append_eq_append_take, hofflen]
    have h1 : (blob.take off).take (off + png.length) = blob.take off :=
      List.take_of_length_le (by omega)
    rw [h1, List.take_append_eq_append_take]
    have h2 : png.take (off + png.length - off) = png :=
      List.take_of_length_le (by omega)
    rw [h2]
    simp
  have hdrop : (blob.take off ++ (png ++ blob.drop (off + png.length))).drop (off + old)
      = blob.drop (off + old) := by
    rw [List.drop_append_eq_append_drop, hofflen]
    have h1 : (blob.take off).drop (off + old) = [] :=
      List.drop_eq_nil_of_le (by omega)
    rw [h1, List.drop_append_eq_append_drop]
    have h2 : png.drop (off + old - off) = [] :=
      List.drop_eq_nil_of_le (by omega)
    rw [h2, List.drop_drop]
    simp only [List.nil_append]
    congr 1
    omega
  simp only [List.append_assoc]
  rw [htake, hdrop]
  simp [List.append_assoc]

end AvatarGen

namespace AvatarGen

/-- Computation of `patchStep` in the in-place branch (lines 263-268 plus
the MIME update of line 281), under the container invariant that the view's
range lies inside the blob. -/
theorem patchStep_inplace (g : GLTF) (idx bvi : Nat) (img : GLTFImage) (bv : BufferView)
    (blob png : List Nat)
    (himg : g.images[idx]? = some img)
    (hbv : img.bufferView = some bvi)
    (hbvv : g.bufferViews[bvi]? = some bv)
    (hblob : g.blob = some blob)
    (hrange : bv.byteOffset + bv.byteLength ≤ blob.length)
    (hle : png.length ≤ bv.byteLength) :
    patchStep g idx png = .ok { g with
      images := g.images.set idx { img with mimeType := some "image/png" },
      bufferViews := g.bufferViews.set bvi
        { byteOffset := bv.byteOffset, byteLength := png.length },
      blob := some (blob.take bv.byteOffset ++ png ++
        List.replicate (bv.byteLength - png.length) 0 ++
        blob.drop (bv.byteOffset + bv.byteLength)) } := by
  simp only [patchStep, getItem, himg, hbv, hbvv, hblob, if_pos hle]
  rw [double_assign blob png bv.byteOffset bv.byteLength hrange hle]

/-- Computation of `patchStep` in the relocate branch (lines 269-278 plus
the MIME update of line 281). -/
theorem patchStep_relocate (g : GLTF) (idx bvi : Nat) (img : GLTFImage) (bv : BufferView)
    (blob png : List Nat) (b0 : Buffer) (bufRest : List Buffer)
    (himg : g.images[idx]? = some img)
    (hbv : img.bufferView = some bvi)
    (hbvv : g.bufferViews[bvi]? = some bv)
    (hblob : g.blob = some blob)
    (hgt : bv.byteLength < png.length)
    (hbuf : g.buffers = b0 :: bufRest) :
    patchStep g idx png = .ok { g with
      images := g.images.set idx { img with mimeType := some "image/png" },
      bufferViews := g.bufferViews.set bvi
        { byteOffset := (padTo4 blob).length, byteLength := png.length },
      buffers := { byteLength := (padTo4 blob ++ png).length } :: bufRest,
      blob := some (padTo4 blob ++ png) } := by
  simp only [patchStep, getItem, himg, hbv, hbvv, hblob,
    if_neg (by omega : ¬ png.length ≤ bv.byteLength)]
  simp only [hbuf]

end AvatarGen

namespace AvatarGen

/-- Expected result of patching the sample container in place. -/
def gW2 : GLTF :=
  { meshes := [meshW], materials := [matW], textures := [{ source := some 0 }],
    images := [{ bufferView := some 0, mimeType := some "image/png" }],
    bufferViews := [{ byteOffset := 4, byteLength := 4 }],
    buffers := [{ byteLength := 12 }],
    blob := some [1, 2, 3, 4, 90, 91, 92, 93, 0, 0, 11, 12] }

/-- C1: when the new encoded image is no longer than the located face
image's old slot, the patcher writes the new bytes into the blob at the
view's existing byte offset, zero-fills the remaining old bytes of the
slot, sets the view's byte length to the new length (not the old slot
size) and leaves its byte offset unchanged. -/
theorem patch_in_place_overwrites (g : GLTF) (idx bvi : Nat) (img : GLTFImage)
    (bv : BufferView) (blob png : List Nat)
    (himg : g.images[idx]? = some img)
    (hbv : img.bufferView = some bvi)
    (hbvv : g.bufferViews[bvi]? = some bv)
    (hblob : g.blob = some blob)
    (hrange : bv.byteOffset + bv.byteLength ≤ blob.length)
    (hle : png.length ≤ bv.byteLength) :
    patchStep g idx png = .ok { g with
      images := g.images.set idx { img with mimeType := some "image/png" },
      bufferViews := g.bufferViews.set bvi
        { byteOffset := bv.byteOffset, byteLength := png.length },
      blob := some (blob.take bv.byteOffset ++ png ++
        List.replicate (bv.byteLength - png.length) 0 ++
        blob.drop (bv.byteOffset + bv.byteLength)) } :=
  patchStep_inplace g idx bvi img bv blob png himg hbv hbvv hblob hrange hle

/-- Witness for C1 on the sample container. -/
theorem patch_in_place_overwrites_witness :
    gW.images[0]? = some imgW ∧ imgW.bufferView = some 0 ∧
    gW.bufferViews[0]? = some bvW ∧ gW.blob = some blobW ∧
    bvW.byteOffset + bvW.byteLength ≤ blobW.length ∧
    pngW.length ≤ bvW.byteLength ∧
    patchStep gW 0 pngW = .ok { gW with
      images := gW.images.set 0 { imgW with mimeType := some "image/png" },
      bufferViews := gW.bufferViews.set 0
        { byteOffset := bvW.byteOffset, byteLength := pngW.length },
      blob := some (blobW.take bvW.byteOffset ++ pngW ++
        List.replicate (bvW.byteLength - pngW.length) 0 ++
        blobW.drop (bvW.byteOffset + bvW.byteLength)) } :=
  ⟨rfl, rfl, rfl, rfl, by decide, by decide,
    patch_in_place_overwrites gW 0 0 imgW bvW blobW pngW rfl rfl rfl rfl
      (by decide) (by decide)⟩

/-- C2: an in-place patch leaves the total blob length unchanged and the
offset and length of every buffer view other than the patched one
unchanged. -/
theorem patch_in_place_frame (g : GLTF) (idx bvi : Nat) (img : GLTFImage)
    (bv : BufferView) (blob png : List Nat) (g2 : GLTF)
    (himg : g.images[idx]? = some img)
    (hbv : img.bufferView = some bvi)
    (hbvv : g.bufferViews[bvi]? = some bv)
    (hblob : g.blob = some blob)
    (hrange : bv.byteOffset + bv.byteLength ≤ blob.length)
    (hle : png.length ≤ bv.byteLength)
    (hrun : patchStep g idx png = .ok g2) :
    (g2.blob.getD []).length = blob.length ∧
    ∀ j, j ≠ bvi → g2.bufferViews[j]? = g.bufferViews[j]? := by
  rw [patchStep_inplace g idx bvi img bv blob png himg hbv hbvv hblob hrange hle] at hrun
  simp only [Except.ok.injEq] at hrun
  subst hrun
  constructor
  · simp only [Option.getD_some, List.length_append, List.length_take,
      List.length_replicate, List.length_drop]
    omega
  · intro j hj
    simp only
    rw [List.getElem?_set_ne (Ne.symm hj)]

/-- Witness for C2 on the sample container. -/
theorem patch_in_place_frame_witness :
    patchStep gW 0 pngW = .ok gW2 ∧
    (gW2.blob.getD []).length = blobW.length ∧
    ∀ j, j ≠ 0 → gW2.bufferViews[j]? = gW.bufferViews[j]? :=
  ⟨rfl,
    patch_in_place_frame gW 0 0 imgW bvW blobW pngW gW2 rfl rfl rfl rfl
      (by decide) (by decide) rfl⟩

/-- C3: when the new encoded image exceeds the old slot, the blob is
zero-padded to a 4-byte boundary and the new bytes are appended; the
patched view's offset becomes the padded pre-append length (a multiple of
4), its length the new payload length, and the first buffer's declared
length the post-append blob length. -/
theorem patch_relocate_appends (g : GLTF) (idx bvi : Nat) (img : GLTFImage)
    (bv : BufferView) (blob png : List Nat) (b0 : Buffer) (bufRest : List Buffer)
    (himg : g.images[idx]? = some img)
    (hbv : img.bufferView = some bvi)
    (hbvv : g.bufferViews[bvi]? = some bv)
    (hblob : g.blob = some blob)
    (hgt : bv.byteLength < png.length)
    (hbuf : g.buffers = b0 :: bufRest) :
    patchStep g idx png = .ok { g with
      images := g.images.set idx { img with mimeType := some "image/png" },
      bufferViews := g.bufferViews.set bvi
        { byteOffset := (padTo4 blob).length, byteLength := png.length },
      buffers := { byteLength := (padTo4 blob ++ png).length } :: bufRest,
      blob := some (padTo4 blob ++ png) } ∧
    (padTo4 blob).length % 4 = 0 ∧
    padTo4 blob = blob ++ List.replicate ((padTo4 blob).length - blob.length) 0 :=
  ⟨patchStep_relocate g idx bvi img bv blob png b0 bufRest himg hbv hbvv hblob hgt hbuf,
    padTo4_length_mod blob, padTo4_append blob⟩

/-- Witness for C3 on the sample container with a 7-byte payload. -/
theorem patch_relocate_appends_witness :
    gW.images[0]? = some imgW ∧ imgW.bufferView = some 0 ∧
    gW.bufferViews[0]? = some bvW ∧ gW.blob = some blobW ∧
    bvW.byteLength < pngBig.length ∧
    gW.buffers = { byteLength := 12 } :: [] ∧
    (patchStep gW 0 pngBig = .ok { gW with
      images := gW.images.set 0 { imgW with mimeType := some "image/png" },
      bufferViews := gW.bufferViews.set 0
        { byteOffset := (padTo4 blobW).length, byteLength := pngBig.length },
      buffers := { byteLength := (padTo4 blobW ++ pngBig).length } :: [],
      blob := some (padTo4 blobW ++ pngBig) } ∧
    (padTo4 blobW).length % 4 = 0 ∧
    padTo4 blobW = blobW ++ List.replicate ((padTo4 blobW).length - blobW.length) 0) :=
  ⟨rfl, rfl, rfl, rfl, by decide, rfl,
    patch_relocate_appends gW 0 0 imgW bvW blobW pngBig { byteLength := 12 } []
      rfl rfl rfl rfl (by decide) rfl⟩

end AvatarGen

namespace AvatarGen

/-- On a container with in-range cross indices, the primitive scan agrees
with the spec-side first-resolution over the primitive list. -/
theorem findInPrims_eq (g : GLTF) (ps : List Primitive)
    (hp : ∀ p ∈ ps, primWF g p = true)
    (hm : ∀ mt ∈ g.materials, matWF g mt = true) :
    findInPrims g ps = .ok (ps.findSome? (specResolvePrim g)) := by
  induction ps with
  | nil => simp [findInPrims]
  | cons p rest ih =>
    have hrest : ∀ q ∈ rest, primWF g q = true :=
      fun q hq => hp q (List.mem_cons_of_mem _ hq)
    have hih := ih hrest
    cases hpm : p.material with
    | none =>
      have hspec : specResolvePrim g p = none := by simp [specResolvePrim, hpm]
      rw [List.findSome?_cons, hspec]
      simp only [findInPrims, hpm]
      exact hih
    | some mi =>
      have hw : mi < g.materials.length := by
        have h1 := hp p (List.mem_cons_self p rest)
        simp only [primWF, hpm, decide_eq_true_eq] at h1
        exact h1
      have hmat : g.materials[mi]? = some g.materials[mi] := List.getElem?_eq_getElem hw
      have hmatw := hm g.materials[mi] (List.getElem?_mem hmat)
      cases hpbr : g.materials[mi].pbrMetallicRoughness with
      | none =>
        have hspec : specResolvePrim g p = none := by
          simp [specResolvePrim, hpm, hmat, hpbr]
        rw [List.findSome?_cons, hspec]
        simp only [findInPrims, hpm, getItem, hmat, hpbr]
        exact hih
      | some pbr =>
        cases hti : pbr.baseColorTexture with
        | none =>
          have hspec : specResolvePrim g p = none := by
            simp [specResolvePrim, hpm, hmat, hpbr, hti]
          rw [List.findSome?_cons, hspec]
          simp only [findInPrims, hpm, getItem, hmat, hpbr, hti]
          exact hih
        | some ti =>
          have hwt : ti < g.textures.length := by
            simp only [matWF, hpbr, hti, decide_eq_true_eq] at hmatw
            exact hmatw
          have htex : g.textures[ti]? = some g.textures[ti] := List.getElem?_eq_getElem hwt
          cases hsrc : g.textures[ti].source with
          | none =>
            have hspec : specResolvePrim g p = none := by
              simp [specResolvePrim, hpm, hmat, hpbr, hti, htex, hsrc]
            rw [List.findSome?_cons, hspec]
            simp only [findInPrims, hpm, getItem, hmat, hpbr, hti, htex, hsrc]
            exact hih
          | some s =>
            have hspec : specResolvePrim g p = some s := by
              simp [specResolvePrim, hpm, hmat, hpbr, hti, htex, hsrc]
            rw [List.findSome?_cons, hspec]
            simp only [findInPrims, hpm, getItem, hmat, hpbr, hti, htex, hsrc]

end AvatarGen

namespace AvatarGen

/-- On a container with in-range cross indices, the mesh scan agrees with
the spec-side first-match over the mesh list. -/
theorem findInMeshes_eq (g : GLTF) (ms : List Mesh)
    (hms : ∀ m ∈ ms, ∀ p ∈ m.primitives, primWF g p = true)
    (hm : ∀ mt ∈ g.materials, matWF g mt = true) :
    findInMeshes g ms = .ok (ms.findSome? (specResolveMesh g)) := by
  induction ms with
  | nil => simp [findInMeshes]
  | cons m rest ih =>
    have hrest : ∀ m2 ∈ rest, ∀ p ∈ m2.primitives, primWF g p = true :=
      fun m2 hm2 => hms m2 (List.mem_cons_of_mem _ hm2)
    have hih := ih hrest
    by_cases hname : nameHas m.name "head"
    · have hprims := findInPrims_eq g m.primitives (hms m (List.mem_cons_self m rest)) hm
      cases hfs : m.primitives.findSome? (specResolvePrim g) with
      | none =>
        have hspec : specResolveMesh g m = none := by simp [specResolveMesh, hname, hfs]
        rw [List.findSome?_cons, hspec]
        simp only [findInMeshes, hname, if_true, hprims, hfs]
        exact hih
      | some s =>
        have hspec : specResolveMesh g m = some s := by simp [specResolveMesh, hname, hfs]
        rw [List.findSome?_cons, hspec]
        simp only [findInMeshes, hname, if_true, hprims, hfs]
    · have hspec : specResolveMesh g m = none := by simp [specResolveMesh, hname]
      rw [List.findSome?_cons, hspec]
      simp only [findInMeshes, hname, if_false]
      exact hih

/-- On a container with in-range cross indices, the material scan agrees
with the spec-side first-match over the material list. -/
theorem findInMats_eq (g : GLTF) (mats : List Material)
    (hm : ∀ mt ∈ mats, matWF g mt = true) :
    findInMats g mats = .ok (mats.findSome? (specResolveMat g)) := by
  induction mats with
  | nil => simp [findInMats]
  | cons mat rest ih =>
    have hrest : ∀ mt ∈ rest, matWF g mt = true :=
      fun mt hmt => hm mt (List.mem_cons_of_mem _ hmt)
    have hih := ih hrest
    have hmatw := hm mat (List.mem_cons_self mat rest)
    by_cases hname : nameHas mat.name "skin"
    · cases hpbr : mat.pbrMetallicRoughness with
      | none =>
        have hspec : specResolveMat g mat = none := by simp [specResolveMat, hname, hpbr]
        rw [List.findSome?_cons, hspec]
        simp only [findInMats, hname, if_true, hpbr]
        exact hih
      | some pbr =>
        cases hti : pbr.baseColorTexture with
        | none =>
          have hspec : specResolveMat g mat = none := by
            simp [specResolveMat, hname, hpbr, hti]
          rw [List.findSome?_cons, hspec]
          simp only [findInMats, hname, if_true, hpbr, hti]
          exact hih
        | some ti =>
          have hwt : ti < g.textures.length := by
            simp only [matWF, hpbr, hti, decide_eq_true_eq] at hmatw
            exact hmatw
          have htex : g.textures[ti]? = some g.textures[ti] := List.getElem?_eq_getElem hwt
          cases hsrc : g.textures[ti].source with
          | none =>
            have hspec : specResolveMat g mat = none := by
              simp [specResolveMat, hname, hpbr, hti, htex, hsrc]
            rw [List.findSome?_cons, hspec]
            simp only [findInMats, hname, if_true, hpbr, hti, getItem, htex, hsrc]
            exact hih
          | some s =>
            have hspec : specResolveMat g mat = some s := by
              simp [specResolveMat, hname, hpbr, hti, htex, hsrc]
            rw [List.findSome?_cons, hspec]
            simp only [findInMats, hname, if_true, hpbr, hti, getItem, htex, hsrc]
    · have hspec : specResolveMat g mat = none := by simp [specResolveMat, hname]
      rw [List.findSome?_cons, hspec]
      simp only [findInMats, hname, if_false]
      exact hih

/-- C4: on every loaded container whose cross indices are in range, the
locator equals the spec-described resolution: first the mesh scan for a
name containing "head" with a resolving primitive chain, then — only if
that fails — the material scan for a name containing "skin", else the
not-found outcome; being a pure function of the container, the traversal
mutates nothing. -/
theorem locator_matches_spec (g : GLTF) (hwf : wfGLTF g = true) :
    findSkinImageIndex g = .ok (specLocateFaceImage g) := by
  have hparts := hwf
  simp only [wfGLTF, Bool.and_eq_true, List.all_eq_true] at hparts
  obtain ⟨hmeshes, hmats⟩ := hparts
  have hms : ∀ m ∈ g.meshes, ∀ p ∈ m.primitives, primWF g p = true := by
    intro m hm p hp
    have := hmeshes m hm
    simp only [List.all_eq_true] at this
    exact this p hp
  have hmt : ∀ mt ∈ g.materials, matWF g mt = true := fun mt hmt => hmats mt hmt
  rw [findSkinImageIndex, findInMeshes_eq g g.meshes hms hmt]
  rw [specLocateFaceImage]
  cases hfs : g.meshes.findSome? (specResolveMesh g) with
  | none =>
    rw [findInMats_eq g g.materials hmt]
    rfl
  | some s => rfl

/-- Witness for C4 on the sample container. -/
theorem locator_matches_spec_witness :
    wfGLTF gW = true ∧ findSkinImageIndex gW = .ok (specLocateFaceImage gW) :=
  ⟨by decide, locator_matches_spec gW (by decide)⟩

end AvatarGen

namespace AvatarGen

/-- When no mesh name contains "head", strategy 1 returns nothing. -/
theorem findInMeshes_no_match (g : GLTF) (ms : List Mesh)
    (h : ∀ m ∈ ms, nameHas m.name "head" = false) :
    findInMeshes g ms = .ok none := by
  induction ms with
  | nil => rfl
  | cons m rest ih =>
    have hm := h m (List.mem_cons_self m rest)
    simp only [findInMeshes, hm, Bool.false_eq_true, if_false]
    exact ih fun m2 hm2 => h m2 (List.mem_cons_of_mem _ hm2)

/-- When no material name contains "skin", strategy 2 returns nothing. -/
theorem findInMats_no_match (g : GLTF) (mats : List Material)
    (h : ∀ mt ∈ mats, nameHas mt.name "skin" = false) :
    findInMats g mats = .ok none := by
  induction mats with
  | nil => rfl
  | cons mat rest ih =>
    have hm := h mat (List.mem_cons_self mat rest)
    simp only [findInMats, hm, Bool.false_eq_true, if_false]
    exact ih fun m2 hm2 => h m2 (List.mem_cons_of_mem _ hm2)

/-- C6: on a template container in which no mesh name contains "head" and
no material name contains "skin" (case-insensitively), the patch path
takes the no-face-texture failure branch — `return False` at line 223 —
before any write, so no output file is created. -/
theorem no_heuristic_match_fails (g : GLTF) (png : List Nat)
    (hmesh : ∀ m ∈ g.meshes, nameHas m.name "head" = false)
    (hmat : ∀ mt ∈ g.materials, nameHas mt.name "skin" = false) :
    replaceTextureInGlb g png = .failNoTexture := by
  rw [replaceTextureInGlb, findSkinImageIndex,
    findInMeshes_no_match g g.meshes hmesh, findInMats_no_match g g.materials hmat]

/-- Template container with no matching names, for the C6 witness. -/
def gNoMatch : GLTF :=
  { meshes := [{ name := some "Body", primitives := [{ material := some 0 }] }],
    materials := [{ name := some "Paint",
                    pbrMetallicRoughness := some { baseColorTexture := some 0 } }],
    textures := [{ source := some 0 }], images := [imgW], bufferViews := [bvW],
    buffers := [{ byteLength := 12 }], blob := some blobW }

/-- Witness for C6. -/
theorem no_heuristic_match_fails_witness :
    (∀ m ∈ gNoMatch.meshes, nameHas m.name "head" = false) ∧
    (∀ mt ∈ gNoMatch.materials, nameHas mt.name "skin" = false) ∧
    replaceTextureInGlb gNoMatch pngW = .failNoTexture :=
  ⟨by decide, by decide,
    no_heuristic_match_fails gNoMatch pngW (by decide) (by decide)⟩

/-- A container without a binary blob can never yield an extracted image:
either the image lookup raises, the image has no buffer view, or slicing
the absent blob raises `TypeError` (line 197). -/
theorem extract_noblob (g : GLTF) (idx : Nat) (hblob : g.blob = none) (d : List Nat) :
    extractGlbImage g idx ≠ .ok (some d) := by
  rw [extractGlbImage]
  cases hi : getItem g.images idx with
  | error e => simp
  | ok img =>
    cases hbv : img.bufferView with
    | none => simp [hbv]
    | some bvi =>
      cases hb : getItem g.bufferViews bvi with
      | error e => simp [hbv, hb]
      | ok bv => simp [hbv, hb, hblob]

/-- C5: on a template container with no embedded binary blob the patch
path never reaches `gltf.save`: it fails with `return False` (no texture
located, or original not extractable) or with an uncaught exception from
slicing the absent blob — in every case nothing is written to the output
path and no success is reported. -/
theorem no_blob_no_save (g : GLTF) (png : List Nat) (hblob : g.blob = none) :
    savedOutcome (replaceTextureInGlb g png) = false := by
  cases hfind : findSkinImageIndex g with
  | error e => simp [replaceTextureInGlb, hfind, savedOutcome]
  | ok o =>
    cases o with
    | none => simp [replaceTextureInGlb, hfind, savedOutcome]
    | some idx =>
      cases hex : extractGlbImage g idx with
      | error e => simp [replaceTextureInGlb, hfind, hex, savedOutcome]
      | ok r =>
        cases r with
        | none => simp [replaceTextureInGlb, hfind, hex, savedOutcome]
        | some d => exact absurd hex (extract_noblob g idx hblob d)

/-- Witness for C5: the sample container with its blob removed. -/
theorem no_blob_no_save_witness :
    gNoBlob.blob = none ∧ savedOutcome (replaceTextureInGlb gNoBlob pngW) = false :=
  ⟨rfl, no_blob_no_save gNoBlob pngW rfl⟩

end AvatarGen

namespace AvatarGen

/-- A mask value of 255 gives `alpha = 1`, so the blend returns the warped
channel exactly. -/
theorem blendPixel_full (w o : Nat) : blendPixel w o 255 = w := by
  have h : ((255 : Nat) : ℚ) / 255 = 1 := by norm_num
  rw [blendPixel, h]
  norm_num

/-- A mask value of 0 gives `alpha = 0`, so the blend returns the original
channel exactly. -/
theorem blendPixel_zero (w o : Nat) : blendPixel w o 0 = o := by
  have h : ((0 : Nat) : ℚ) / 255 = 0 := by norm_num
  rw [blendPixel, h]
  norm_num

/-- Full mask on one RGB pixel. -/
theorem blendRGB_full (w o : Nat × Nat × Nat) : blendRGB w o 255 = w := by
  obtain ⟨w1, w2, w3⟩ := w
  simp [blendRGB, blendPixel_full]

/-- Zero mask on one RGB pixel. -/
theorem blendRGB_zero (w o : Nat × Nat × Nat) : blendRGB w o 0 = o := by
  obtain ⟨o1, o2, o3⟩ := o
  simp [blendRGB, blendPixel_zero]

/-- An all-255 mask blends to the warped image. -/
theorem blendImage_full : ∀ (ws os : List (Nat × Nat × Nat)) (ms : List Nat),
    ws.length = os.length → ms.length = ws.length → (∀ v ∈ ms, v = 255) →
    blendImage ws os ms = ws := by
  intro ws
  induction ws with
  | nil => intro os ms _ _ _; cases os <;> cases ms <;> rfl
  | cons w ws ih =>
    intro os ms hlen1 hlen2 hmask
    cases os with
    | nil => simp at hlen1
    | cons o os =>
      cases ms with
      | nil => simp at hlen2
      | cons m ms =>
        have hm : m = 255 := hmask m (List.mem_cons_self m ms)
        rw [blendImage, hm, blendRGB_full]
        congr 1
        exact ih os ms (by simpa using hlen1) (by simpa using hlen2)
          fun v hv => hmask v (List.mem_cons_of_mem _ hv)

/-- An all-0 mask blends to the original image. -/
theorem blendImage_zero : ∀ (ws os : List (Nat × Nat × Nat)) (ms : List Nat),
    ws.length = os.length → ms.length = ws.length → (∀ v ∈ ms, v = 0) →
    blendImage ws os ms = os := by
  intro ws
  induction ws with
  | nil =>
    intro os ms hlen1 _ _
    cases os with
    | nil => cases ms <;> rfl
    | cons o os => simp at hlen1
  | cons w ws ih =>
    intro os ms hlen1 hlen2 hmask
    cases os with
    | nil => simp at hlen1
    | cons o os =>
      cases ms with
      | nil => simp at hlen2
      | cons m ms =>
        have hm : m = 0 := hmask m (List.mem_cons_self m ms)
        rw [blendImage, hm, blendRGB_zero]
        congr 1
        exact ih os ms (by simpa using hlen1) (by simpa using hlen2)
          fun v hv => hmask v (List.mem_cons_of_mem _ hv)

/-- C7: on equal-dimension inputs, compositing with an all-255 mask gives
the warped photo pixel for pixel, and compositing with an all-0 mask gives
the original texture pixel for pixel (exactly — the rounding in the code's
float blend is exact at these mask extremes). -/
theorem blend_extreme_masks (warped original : List (Nat × Nat × Nat)) (mask : List Nat)
    (hlen1 : warped.length = original.length) (hlen2 : mask.length = warped.length) :
    ((∀ v ∈ mask, v = 255) → blendImage warped original mask = warped) ∧
    ((∀ v ∈ mask, v = 0) → blendImage warped original mask = original) :=
  ⟨fun h => blendImage_full warped original mask hlen1 hlen2 h,
   fun h => blendImage_zero warped original mask hlen1 hlen2 h⟩

/-- Sample warped image for the C7 witness. -/
def wSample : List (Nat × Nat × Nat) := [(10, 20, 30), (200, 100, 50)]

/-- Sample original texture for the C7 witness. -/
def oSample : List (Nat × Nat × Nat) := [(1, 2, 3), (4, 5, 6)]

/-- Witness for C7. -/
theorem blend_extreme_masks_witness :
    blendImage wSample oSample [255, 255] = wSample ∧
    blendImage wSample oSample [0, 0] = oSample :=
  ⟨(blend_extreme_masks wSample oSample [255, 255] rfl rfl).1 (by decide),
   (blend_extreme_masks wSample oSample [0, 0] rfl rfl).2 (by decide)⟩

end AvatarGen

namespace AvatarGen

/-- C8 counterexample: a landmark set whose three anchors 159, 386 and 1
are collinear — degenerate geometry in the claim's sense — on which
`extract_face_texture` still produces a warped output and signals no
`InvalidCorrespondence` error: the source has no degeneracy check and no
error path, and the external solver handles the singular system without
raising. -/
theorem mapper_no_degeneracy_check_counterexample :
    collinear3 (lmDeg 159) (lmDeg 386) (lmDeg 1) = true ∧
    extractFaceTexture lmDeg =
      .warpedOutput (getPerspectiveTransform (srcPts lmDeg) dstPts) ∧
    extractFaceTexture lmDeg ≠ MapperOutcome.invalidCorrespondence := by
  refine ⟨?_, rfl, ?_⟩
  · simp only [collinear3, lmDeg, decide_eq_true_eq]
    norm_num
  · simp [extractFaceTexture]

/-- C8 (amended): the geometry mapper performs no collinearity check and
never signals an error; for every landmark input — degenerate anchors
included — it computes the transform through the external solver (which on
a singular system yields a degenerate matrix instead of raising) and
produces the warped output. -/
theorem mapper_always_warps (lm : Nat → ℚ × ℚ) :
    extractFaceTexture lm =
      .warpedOutput (getPerspectiveTransform (srcPts lm) dstPts) ∧
    extractFaceTexture lm ≠ MapperOutcome.invalidCorrespondence :=
  ⟨rfl, by simp [extractFaceTexture]⟩

/-- C9: the standalone builder lays out exactly four buffer views
(indices, positions, UVs, image bytes) packed consecutively at 4-byte
aligned offsets 0, 12, 60 and 92; every view's byte range lies within the
buffer's declared length, and that declared length equals the total blob
length. -/
theorem standalone_layout_invariants (png : List Nat) :
    (standaloneGltf png).bufferViews =
      [{ byteOffset := 0, byteLength := 12 },
       { byteOffset := 12, byteLength := 48 },
       { byteOffset := 60, byteLength := 32 },
       { byteOffset := 92, byteLength := png.length }] ∧
    (standaloneGltf png).buffers =
      [{ byteLength := ((standaloneGltf png).blob.getD []).length }] ∧
    ((standaloneGltf png).blob.getD []).length = 92 + align4 png.length ∧
    ∀ bv ∈ (standaloneGltf png).bufferViews,
      bv.byteOffset % 4 = 0 ∧
      bv.byteOffset + bv.byteLength ≤ ((standaloneGltf png).blob.getD []).length := by
  have hi : indicesBytes.length = 12 := rfl
  have hv : verticesBytes.length = 48 := rfl
  have hu : uvsBytes.length = 32 := rfl
  have hlen : ((standaloneGltf png).blob.getD []).length = 92 + align4 png.length := by
    simp only [standaloneGltf, Option.getD_some, List.length_append,
      List.length_replicate, hi, hv, hu]
    simp only [align4]
    omega
  have halign : png.length ≤ align4 png.length := by
    simp only [align4]; omega
  refine ⟨rfl, rfl, hlen, ?_⟩
  intro bv hbv
  rw [hlen]
  have hviews : (standaloneGltf png).bufferViews =
      [{ byteOffset := 0, byteLength := 12 },
       { byteOffset := 12, byteLength := 48 },
       { byteOffset := 60, byteLength := 32 },
       { byteOffset := 92, byteLength := png.length }] := rfl
  rw [hviews] at hbv
  simp only [List.mem_cons, List.not_mem_nil, or_false] at hbv
  rcases hbv with h | h | h | h
  · subst h
    refine ⟨?_, ?_⟩
    · show 0 % 4 = 0
      norm_num
    · show 0 + 12 ≤ 92 + align4 png.length
      omega
  · subst h
    refine ⟨?_, ?_⟩
    · show 12 % 4 = 0
      norm_num
    · show 12 + 48 ≤ 92 + align4 png.length
      omega
  · subst h
    refine ⟨?_, ?_⟩
    · show 60 % 4 = 0
      norm_num
    · show 60 + 32 ≤ 92 + align4 png.length
      omega
  · subst h
    refine ⟨?_, ?_⟩
    · show 92 % 4 = 0
      norm_num
    · show 92 + png.length ≤ 92 + align4 png.length
      omega

/-- C10: the standalone fallback writes the loose PNG face texture — at
the output path with ".glb" replaced by ".png" — before any container
synthesis; when the guarded build body raises, the exception is caught and
turned into a `false` return with the PNG already written, and when it
does not, the container write follows the PNG write. -/
theorem standalone_png_written_first (out : String) (png : List Nat) :
    generateStandaloneAvatar out png true =
      ([.pngWrite (out.replace ".glb" ".png") png], false) ∧
    generateStandaloneAvatar out png false =
      ([.pngWrite (out.replace ".glb" ".png") png,
        .glbWrite out (standaloneGltf png)], true) :=
  ⟨rfl, rfl⟩

end AvatarGen
